import Mathlib

/-!
Verification of the AlgeNova client's slash-command math editor and
page-level solve orchestration.

The editor under verification is the slash-command `MathEditor` variant
(the one with `COMMAND_TEMPLATES`, `expandSlashCommand`, `wrapSelection`,
and the suggestion `Palette`); the solve orchestration is
`handleSolveEquation` / `solveMathEquation` from `src/app/page.tsx`, and
the preview fallback is the `KaTeXRenderer` component.

Strings are modelled as `List Char`; a JavaScript `s.slice(a, b)` with
`0 ≤ a ≤ b` is `(s.drop a).take (b - a)`, `s.slice(0, a)` is `s.take a`,
and `s.slice(a)` is `s.drop a` (both clamp out-of-range indices, like
`slice`). Brace characters inside Lean string literals are written with
the `\x7b` / `\x7d` escapes.
-/

/-- The state of the `<textarea>` backing the editor: its `value` string
and the selection range `[selStart, selEnd]`; the caret is `selStart`
(when `selStart = selEnd` there is no active selection). -/
structure TextArea where
  value : List Char
  selStart : Nat
  selEnd : Nat
  deriving DecidableEq, Repr

/-- `insertAtCursor(el, text)`: replaces the selected range with `text`
and puts the caret right after the inserted text. -/
def insertAtCursor (el : TextArea) (text : List Char) : TextArea :=
  let start := el.selStart
  let stop := el.selEnd
  let beforeText := el.value.take start
  let afterText := el.value.drop stop
  let newPos := start + text.length
  ⟨beforeText ++ text ++ afterText, newPos, newPos⟩

/-- `wrapSelection(el, beforeWrap, afterWrap)`: replaces the selected
range `[start, end]` with `beforeWrap + selection + afterWrap`; the new
caret is `prefixText.length + next.length`, i.e. after the whole wrapped
text. -/
def wrapSelection (el : TextArea) (beforeWrap afterWrap : List Char) : TextArea :=
  let start := el.selStart
  let stop := el.selEnd
  let sel := (el.value.drop start).take (stop - start)
  let next := beforeWrap ++ sel ++ afterWrap
  let prefixText := el.value.take start
  let suffixText := el.value.drop stop
  let caret := prefixText.length + next.length
  ⟨prefixText ++ next ++ suffixText, caret, caret⟩

/-- A character of the class `[a-zA-Z0-9_]` used by the slash-command
regular expressions. -/
def isIdentChar (c : Char) : Bool :=
  (decide ('a' ≤ c) && decide (c ≤ 'z')) ||
  (decide ('A' ≤ c) && decide (c ≤ 'Z')) ||
  (decide ('0' ≤ c) && decide (c ≤ '9')) ||
  c == '_'

/-- The match of `/\/(?:[a-zA-Z0-9_]+)$/` against `text`: the final
maximal run of identifier characters must be non-empty and immediately
preceded by a slash; the returned list is the whole matched span
`/<cmd>`. -/
def slashMatch (text : List Char) : Option (List Char) :=
  let r := text.reverse
  let tail := r.takeWhile isIdentChar
  if tail.isEmpty then none
  else
    match r.drop tail.length with
    | '/' :: _ => some ('/' :: tail.reverse)
    | _ => none

/-- The match of `/\/(?:[a-zA-Z0-9_]*)$/` against `text` (zero or more
identifier characters after the slash), as used by `refreshSlashQuery`
and `pickCommand`. -/
def slashQueryMatch (text : List Char) : Option (List Char) :=
  let r := text.reverse
  let tail := r.takeWhile isIdentChar
  match r.drop tail.length with
  | '/' :: _ => some ('/' :: tail.reverse)
  | _ => none

namespace COMMAND_TEMPLATES

/-- `frac: (sel = "") => \frac{sel}{}` -/
def frac (sel : List Char) : List Char :=
  "\\frac\x7b".data ++ sel ++ "\x7d\x7b\x7d".data

/-- `sqrt: (sel = "") => \sqrt{sel}` -/
def sqrt (sel : List Char) : List Char :=
  "\\sqrt\x7b".data ++ sel ++ "\x7d".data

/-- `cbrt: (sel = "") => \sqrt[3]{sel}` -/
def cbrt (sel : List Char) : List Char :=
  "\\sqrt[3]\x7b".data ++ sel ++ "\x7d".data

/-- `nthroot: (sel = "") => \sqrt[]{sel}` -/
def nthroot (sel : List Char) : List Char :=
  "\\sqrt[]\x7b".data ++ sel ++ "\x7d".data

/-- `pow: (sel = "") => {sel}^{}` -/
def pow (sel : List Char) : List Char :=
  "\x7b".data ++ sel ++ "\x7d^\x7b\x7d".data

/-- `sub: (sel = "") => {sel}_{}` -/
def sub (sel : List Char) : List Char :=
  "\x7b".data ++ sel ++ "\x7d_\x7b\x7d".data

/-- `abs: (sel = "") => \left|sel\right|` -/
def abs (sel : List Char) : List Char :=
  "\\left|".data ++ sel ++ "\\right|".data

/-- `floor: (sel = "") => \left\lfloor sel \right\rfloor` -/
def floor (sel : List Char) : List Char :=
  "\\left\\lfloor ".data ++ sel ++ " \\right\\rfloor".data

/-- `ceil: (sel = "") => \left\lceil sel \right\rceil` -/
def ceil (sel : List Char) : List Char :=
  "\\left\\lceil ".data ++ sel ++ " \\right\\rceil".data

/-- `paren: (sel = "") => \left(sel\right)` -/
def paren (sel : List Char) : List Char :=
  "\\left(".data ++ sel ++ "\\right)".data

/-- `bracket: (sel = "") => \left[sel\right]` -/
def bracket (sel : List Char) : List Char :=
  "\\left[".data ++ sel ++ "\\right]".data

/-- `brace: (sel = "") => \left\{sel\right\}` -/
def brace (sel : List Char) : List Char :=
  "\\left\\\x7b".data ++ sel ++ "\\right\\\x7d".data

/-- `int: () => \int_{ }^{ } \; \` followed by a newline; ignores its
argument (the source template takes no parameter). -/
def int (_sel : List Char) : List Char :=
  "\\int_\x7b \x7d^\x7b \x7d \\; \\\n".data

/-- `dint: () => \int\!\int_{ }^{ } \; \` followed by a newline; ignores
its argument. -/
def dint (_sel : List Char) : List Char :=
  "\\int\\!\\int_\x7b \x7d^\x7b \x7d \\; \\\n".data

/-- `sum: () => \sum_{n= }^{ } ` (trailing space); ignores its argument. -/
def sum (_sel : List Char) : List Char :=
  "\\sum_\x7bn= \x7d^\x7b \x7d ".data

/-- `prod: () => \prod_{n= }^{ } `; ignores its argument. -/
def prod (_sel : List Char) : List Char :=
  "\\prod_\x7bn= \x7d^\x7b \x7d ".data

/-- `lim: () => \lim_{x \to } `; ignores its argument. -/
def lim (_sel : List Char) : List Char :=
  "\\lim_\x7bx \\to \x7d ".data

/-- `diff: (sel = "") => \frac{d}{dx}\left(sel\right)` -/
def diff (sel : List Char) : List Char :=
  "\\frac\x7bd\x7d\x7bdx\x7d\\left(".data ++ sel ++ "\\right)".data

/-- `pdiff: (sel = "") => \frac{\partial}{\partial x}\left(sel\right)` -/
def pdiff (sel : List Char) : List Char :=
  "\\frac\x7b\\partial\x7d\x7b\\partial x\x7d\\left(".data ++ sel ++ "\\right)".data

/-- `sin: (sel = "") => \sin\left(sel\right)` -/
def sin (sel : List Char) : List Char :=
  "\\sin\\left(".data ++ sel ++ "\\right)".data

/-- `cos: (sel = "") => \cos\left(sel\right)` -/
def cos (sel : List Char) : List Char :=
  "\\cos\\left(".data ++ sel ++ "\\right)".data

/-- `tan: (sel = "") => \tan\left(sel\right)` -/
def tan (sel : List Char) : List Char :=
  "\\tan\\left(".data ++ sel ++ "\\right)".data

/-- `ln: (sel = "") => \ln\left(sel\right)` -/
def ln (sel : List Char) : List Char :=
  "\\ln\\left(".data ++ sel ++ "\\right)".data

/-- `log: (sel = "") => \log\left(sel\right)` -/
def log (sel : List Char) : List Char :=
  "\\log\\left(".data ++ sel ++ "\\right)".data

/-- `logb: (sel = "") => \log_{ }\left(sel\right)` -/
def logb (sel : List Char) : List Char :=
  "\\log_\x7b \x7d\\left(".data ++ sel ++ "\\right)".data

/-- `vec: (sel = "") => \vec{sel}` -/
def vec (sel : List Char) : List Char :=
  "\\vec\x7b".data ++ sel ++ "\x7d".data

/-- `hat: (sel = "") => \hat{sel}` -/
def hat (sel : List Char) : List Char :=
  "\\hat\x7b".data ++ sel ++ "\x7d".data

/-- `overline: (sel = "") => \overline{sel}` -/
def overline (sel : List Char) : List Char :=
  "\\overline\x7b".data ++ sel ++ "\x7d".data

/-- `matrix2: () => \begin{bmatrix} \; & \; \\ \; & \; \end{bmatrix}`;
ignores its argument. -/
def matrix2 (_sel : List Char) : List Char :=
  "\\begin\x7bbmatrix\x7d \\; & \\; \\\\ \\; & \\; \\end\x7bbmatrix\x7d".data

/-- `matrix3`: the three-row variant of `matrix2`; ignores its argument. -/
def matrix3 (_sel : List Char) : List Char :=
  "\\begin\x7bbmatrix\x7d \\; & \\; & \\; \\\\ \\; & \\; & \\; \\\\ \\; & \\; & \\; \\end\x7bbmatrix\x7d".data

/-- `text: (sel = "") => \text{sel}` -/
def text (sel : List Char) : List Char :=
  "\\text\x7b".data ++ sel ++ "\x7d".data

end COMMAND_TEMPLATES

/-- The `COMMAND_TEMPLATES` object as an association list, in JavaScript
property-declaration order (which `Object.keys` preserves). -/
def COMMAND_TABLE : List (List Char × (List Char → List Char)) :=
  [("frac".data, COMMAND_TEMPLATES.frac),
   ("sqrt".data, COMMAND_TEMPLATES.sqrt),
   ("cbrt".data, COMMAND_TEMPLATES.cbrt),
   ("nthroot".data, COMMAND_TEMPLATES.nthroot),
   ("pow".data, COMMAND_TEMPLATES.pow),
   ("sub".data, COMMAND_TEMPLATES.sub),
   ("abs".data, COMMAND_TEMPLATES.abs),
   ("floor".data, COMMAND_TEMPLATES.floor),
   ("ceil".data, COMMAND_TEMPLATES.ceil),
   ("paren".data, COMMAND_TEMPLATES.paren),
   ("bracket".data, COMMAND_TEMPLATES.bracket),
   ("brace".data, COMMAND_TEMPLATES.brace),
   ("int".data, COMMAND_TEMPLATES.int),
   ("dint".data, COMMAND_TEMPLATES.dint),
   ("sum".data, COMMAND_TEMPLATES.sum),
   ("prod".data, COMMAND_TEMPLATES.prod),
   ("lim".data, COMMAND_TEMPLATES.lim),
   ("diff".data, COMMAND_TEMPLATES.diff),
   ("pdiff".data, COMMAND_TEMPLATES.pdiff),
   ("sin".data, COMMAND_TEMPLATES.sin),
   ("cos".data, COMMAND_TEMPLATES.cos),
   ("tan".data, COMMAND_TEMPLATES.tan),
   ("ln".data, COMMAND_TEMPLATES.ln),
   ("log".data, COMMAND_TEMPLATES.log),
   ("logb".data, COMMAND_TEMPLATES.logb),
   ("vec".data, COMMAND_TEMPLATES.vec),
   ("hat".data, COMMAND_TEMPLATES.hat),
   ("overline".data, COMMAND_TEMPLATES.overline),
   ("matrix2".data, COMMAND_TEMPLATES.matrix2),
   ("matrix3".data, COMMAND_TEMPLATES.matrix3),
   ("text".data, COMMAND_TEMPLATES.text)]

/-- `templates[cmd]`: property lookup in `COMMAND_TEMPLATES`. -/
def lookupTemplate (cmd : List Char) : Option (List Char → List Char) :=
  (COMMAND_TABLE.find? (fun p => p.1 == cmd)).map Prod.snd

/-- `const ALL_COMMANDS = Object.keys(COMMAND_TEMPLATES)`. -/
def ALL_COMMANDS : List (List Char) := COMMAND_TABLE.map Prod.fst

/-- `expandSlashCommand(el, templates)`: with `pos = el.selectionStart`,
matches `/\/(?:[a-zA-Z0-9_]+)$/` against `el.value.slice(0, pos)`; on a
match whose command has a template, reads any active selection
(`el.value.slice(pos, el.selectionEnd)` when `el.selectionEnd > pos`),
builds `snippet = template(selected)`, and sets
`el.value = before + snippet + after` where
`before = el.value.slice(0, pos - match.length)` and
`after = el.value.slice(pos)`, with the caret at
`before.length + snippet.length`. Returns `none` where the source
returns `false` (no match or unknown command, with no mutation). -/
def expandSlashCommand (el : TextArea) : Option TextArea :=
  let pos := el.selStart
  let text := el.value.take pos
  match slashMatch text with
  | none => none
  | some m =>
    let cmd := m.drop 1
    match lookupTemplate cmd with
    | none => none
    | some template =>
      let start := pos - m.length
      let beforeText := el.value.take start
      let afterText := el.value.drop pos
      let selected :=
        if pos < el.selEnd then (el.value.drop pos).take (el.selEnd - pos) else []
      let snippet := template selected
      let newPos := beforeText.length + snippet.length
      some ⟨beforeText ++ snippet ++ afterText, newPos, newPos⟩

/-- `handleKeyDown` of the slash-command `MathEditor`, restricted to the
intercepted keys. `some el2` means the handler called `preventDefault()`
and left the textarea in state `el2`; `none` means the keystroke falls
through to the browser's default insertion. The source first tries
`expandSlashCommand` for the trigger keys space / Enter / Tab / `)`,
then intercepts `(`, `[`, `{` (smart pairs), `^`, `_` (script wrappers),
and finally Tab (inserts the thin-space token `\, `). -/
def handleKeyDown (el : TextArea) (key : String) : Option TextArea :=
  if (key = " " ∨ key = "Enter" ∨ key = "Tab" ∨ key = ")") ∧
      (expandSlashCommand el).isSome then
    expandSlashCommand el
  else if key = "(" then some (wrapSelection el "(".data ")".data)
  else if key = "[" then some (wrapSelection el "[".data "]".data)
  else if key = "\x7b" then some (wrapSelection el "\x7b".data "\x7d".data)
  else if key = "^" then some (wrapSelection el "\x7b\x7d^\x7b".data "\x7d".data)
  else if key = "_" then some (wrapSelection el "\x7b\x7d_\x7b".data "\x7d".data)
  else if key = "Tab" then some (insertAtCursor el "\\, ".data)
  else none

/-- The `start` computed by `pickCommand`: if
`/\/(?:[a-zA-Z0-9_]*)$/` matches the text left of the caret, the start
of that matched span, else the caret itself. -/
def pickStart (el : TextArea) : Nat :=
  match slashQueryMatch (el.value.take el.selStart) with
  | some m => el.selStart - m.length
  | none => el.selStart

/-- `pickCommand(cmd)`: invoked when the user clicks a palette
suggestion. Deletes the matched `/<query>` span (if any) and inserts
`COMMAND_TEMPLATES[cmd]()` — the template is called with NO argument, so
its selection parameter defaults to the empty string. The new value is
`before + snippet + after` with `after = el.value.slice(pos)` and the
caret at `(before + snippet).length`. `none` models the exception a
missing key would raise (callers only pass table keys). -/
def pickCommand (el : TextArea) (cmd : List Char) : Option TextArea :=
  match lookupTemplate cmd with
  | none => none
  | some template =>
    let beforeText := el.value.take (pickStart el)
    let afterText := el.value.drop el.selStart
    let snippet := template []
    some ⟨beforeText ++ snippet ++ afterText,
          (beforeText ++ snippet).length, (beforeText ++ snippet).length⟩

/-- The `useMemo` body of `Palette`:
`ALL_COMMANDS.filter((k) => k.startsWith(q)).slice(0, 8)` with
`q = query.toLowerCase()`; `startsWith` is the character-list prefix
test. -/
def paletteItems (query : List Char) : List (List Char) :=
  let q := query.map Char.toLower
  (ALL_COMMANDS.filter (fun k => q.isPrefixOf k)).take 8

/-- The suggestion sequence the palette actually presents: the `Palette`
component returns `null` (no list) when the query is empty
(`if (!query) return null`), and otherwise renders `paletteItems`. -/
def paletteSuggestions (query : List Char) : List (List Char) :=
  if query = [] then [] else paletteItems query

/-- `containsSeg needle hay`: `hay` has `needle` as a contiguous
segment (the substring relation on our character-list strings). -/
def containsSeg (needle : List Char) (hay : List Char) : Bool :=
  match hay with
  | [] => needle.isEmpty
  | _ :: t => needle.isPrefixOf hay || containsSeg needle t

/-- `containsPair a b l`: some adjacent pair of characters of `l` is
exactly `a` then `b`. -/
def containsPair (a b : Char) : List Char → Bool
  | [] => false
  | [_] => false
  | x :: y :: t => (x == a && y == b) || containsPair a b (y :: t)

/-- A snippet has an empty structural slot when it contains an empty
delimiter pair: adjacent `{}`, `()`, or `[]`. -/
def hasEmptySlot (l : List Char) : Bool :=
  containsPair '\x7b' '\x7d' l || containsPair '(' ')' l || containsPair '[' ']' l

/-- The page-level React state of `MathSolverApp` in `src/app/page.tsx`
that the solve flow reads and writes, together with the identity of the
abort controller installed by the most recent submission
(`abortControllerRef.current`, numbered by submission). -/
structure AppState where
  solutionData : Option String
  errorMessage : Option String
  isLoading : Bool
  controllerId : Nat
  deriving DecidableEq, Repr

/-- Initial page state: no solution, no error, not loading. -/
def appInit : AppState := ⟨none, none, false, 0⟩

/-- The synchronous part of `handleSolveEquation` up to the `await`:
`setErrorMessage(null)`, `setSolutionData(null)`, abort the previous
controller, install a fresh controller `newId`, `setIsLoading(true)`,
and start the request. Aborting the old controller makes the previous
still-pending invocation's `await` reject with `AbortError`. -/
def handleSolveBegin (s : AppState) (newId : Nat) : AppState :=
  { s with solutionData := none, errorMessage := none,
           isLoading := true, controllerId := newId }

/-- The continuation of one `handleSolveEquation` invocation when its
`await solveMathEquation(...)` settles: on success
`setSolutionData(solution)`, on a thrown `MathSolverError` the catch
runs `setErrorMessage(error.message)`; the `finally` runs
`setIsLoading(false)` either way. The handler does not consult which
controller the settling request belongs to. -/
def handleSolveResume (s : AppState) (result : Except String String) : AppState :=
  match result with
  | Except.ok sol => { s with solutionData := some sol, isLoading := false }
  | Except.error msg => { s with errorMessage := some msg, isLoading := false }

/-- `solveMathEquation` maps a fetch rejected with `AbortError` (the
aborted superseded request) to `MathSolverError("Request was
cancelled")`, which its caller receives as the settlement of its
`await`. -/
def abortedResult : Except String String := Except.error "Request was cancelled"

/-- What the preview area of `KaTeXRenderer` shows: either the raw
un-rendered text in the `<pre>` fallback, or the renderer's HTML markup
via `dangerouslySetInnerHTML`. -/
inductive PreviewDisplay where
  | rawText (t : String)
  | markup (h : String)
  deriving DecidableEq, Repr

/-- The effect body of `KaTeXRenderer`: `setHtml(out)` when
`renderToString` returns markup, `setHtml(null)` when it throws (the
renderer is opaque; its outcome is the `renderResult` argument). -/
def renderEffect (renderResult : Except String String) : Option String :=
  match renderResult with
  | Except.ok out => some out
  | Except.error _ => none

/-- The render branch of `KaTeXRenderer`: when `html === null` (failed
render, or no markup produced yet) it shows `<pre>{latex || ""}</pre>`
— the raw input text — and otherwise the rendered markup. -/
def KaTeXRenderer.display (latex : String) (html : Option String) : PreviewDisplay :=
  match html with
  | none => PreviewDisplay.rawText latex
  | some h => PreviewDisplay.markup h

/-- A list is a prefix (in the `isPrefixOf` sense) of itself followed by
anything. -/
theorem isPrefixOf_self_append (n m : List Char) : n.isPrefixOf (n ++ m) = true := by
  induction n with
  | nil => simp
  | cons a as ih => simp [List.isPrefixOf_cons₂, ih]

/-- Unfolding equation of `containsSeg` on a non-empty haystack. -/
theorem containsSeg_cons_eq (n : List Char) (x : Char) (h : List Char) :
    containsSeg n (x :: h) = (n.isPrefixOf (x :: h) || containsSeg n h) := rfl

/-- Extending the haystack on the left preserves `containsSeg`. -/
theorem containsSeg_cons (n : List Char) (x : Char) (h : List Char)
    (hc : containsSeg n h = true) : containsSeg n (x :: h) = true := by
  rw [containsSeg_cons_eq, hc, Bool.or_true]

/-- A list occurs as a segment of any haystack built around it. -/
theorem containsSeg_self_append (pre n post : List Char) :
    containsSeg n (pre ++ (n ++ post)) = true := by
  induction pre with
  | nil =>
    cases n with
    | nil =>
      cases post with
      | nil => rfl
      | cons y t => simp [containsSeg_cons_eq]
    | cons a as =>
      simp [containsSeg_cons_eq, List.isPrefixOf_cons₂, isPrefixOf_self_append]
  | cons x xs ih => exact containsSeg_cons _ x _ ih

/-- Unfolding equation of `containsPair` on a two-or-more list. -/
theorem containsPair_cons₂ (a b x y : Char) (t : List Char) :
    containsPair a b (x :: y :: t) = ((x == a && y == b) || containsPair a b (y :: t)) := rfl

/-- Extending the list on the left preserves `containsPair`. -/
theorem containsPair_cons (a b x : Char) (l : List Char)
    (hc : containsPair a b l = true) : containsPair a b (x :: l) = true := by
  cases l with
  | nil => exact Bool.noConfusion hc
  | cons y t => rw [containsPair_cons₂, hc, Bool.or_true]

/-- An adjacent pair in the right part survives appending on the left. -/
theorem containsPair_append_right (a b : Char) (l m : List Char)
    (hc : containsPair a b m = true) : containsPair a b (l ++ m) = true := by
  induction l with
  | nil => exact hc
  | cons x xs ih => exact containsPair_cons a b x _ ih

/-- A snippet ending in text with an adjacent `{}` has an empty slot. -/
theorem hasEmptySlot_append_right (l m : List Char)
    (hc : containsPair '\x7b' '\x7d' m = true) : hasEmptySlot (l ++ m) = true := by
  have h := containsPair_append_right '\x7b' '\x7d' l m hc
  simp [hasEmptySlot, h]

/-- Splitting `l.drop a` at `b - a` recovers `l.drop b` (for `a ≤ b`). -/
theorem drop_eq_take_append_drop (l : List Char) (a b : Nat) (h : a ≤ b) :
    l.drop a = (l.drop a).take (b - a) ++ l.drop b := by
  have hd := List.drop_take_append_drop l a (b - a)
  rw [Nat.add_sub_cancel' h] at hd
  exact hd.symm

/-- Every name in the command table is already lower-case. -/
theorem allCommandsLower : ∀ e ∈ ALL_COMMANDS, e.map Char.toLower = e := by
  have h : ALL_COMMANDS.all (fun e => e.map Char.toLower == e) = true := by decide
  intro e he
  exact eq_of_beq (List.all_eq_true.mp h e he)

/-- Claim C1: the spec says that triggering slash-command expansion with
the token `/sqrt` immediately preceding the active selection "x+1"
replaces BOTH the selection and the token with the snippet
`\sqrt{x+1}`. The code computes `after = el.value.slice(pos)` from the
caret (`selectionStart`) instead of from `selectionEnd`, so the selected
characters stay in the buffer: on buffer `/sqrtx+1` with selection
`[5, 8]` (the `x+1`), pressing the space trigger yields
`\sqrt{x+1}` IMMEDIATELY FOLLOWED BY the duplicated `x+1`, not the
snippet alone. -/
theorem c1_sqrt_selection_duplicated :
    handleKeyDown ⟨"/sqrtx+1".data, 5, 8⟩ " " =
      some ⟨"\\sqrt\x7bx+1\x7d".data ++ "x+1".data, 10, 10⟩ ∧
    "\\sqrt\x7bx+1\x7d".data ++ "x+1".data ≠ "\\sqrt\x7bx+1\x7d".data := by
  decide

/-- Claim C2: the spec says a superseded solve request's resolution is
never applied to displayed state and never shown as an error while the
replacement is in flight. The code has no staleness guard: submitting
request 1, then request 2 (which aborts request 1's controller), and
then letting request 1's `await` reject with the mapped
`MathSolverError "Request was cancelled"` sets `errorMessage` to
"Request was cancelled" and `isLoading` to `false` WHILE request 2 is
still pending; the stale message even survives request 2's later
success. -/
theorem c2_cancelled_error_displayed :
    handleSolveResume (handleSolveBegin (handleSolveBegin appInit 1) 2) abortedResult =
      ⟨none, some "Request was cancelled", false, 2⟩ ∧
    handleSolveResume
        (handleSolveResume (handleSolveBegin (handleSolveBegin appInit 1) 2) abortedResult)
        (Except.ok "x = 3") =
      ⟨some "x = 3", some "Request was cancelled", false, 2⟩ := by
  decide

/-- Claim C3, counterexample: on buffer `x=/frac` with the caret at the
end, pressing space does yield buffer `x=\frac{}{}` with the space not
inserted — but the caret lands at index 11, the END of the inserted
snippet, not at index 8, which is the position inside the first empty
slot (right after `x=\frac{`). -/
theorem c3_caret_counterexample :
    handleKeyDown ⟨"x=/frac".data, 7, 7⟩ " " =
      some ⟨"x=\\frac\x7b\x7d\x7b\x7d".data, 11, 11⟩ ∧
    (11 : Nat) ≠ 8 := by
  decide

/-- Claim C3 (amended): on buffer `x=/frac` with caret at the end and no
selection, pressing the space trigger replaces the five characters
`/frac` with `\frac{}{}`, yielding `x=\frac{}{}` without inserting the
space, and places the caret at the end of the inserted snippet
(index 11), not inside its first empty slot. -/
theorem c3_frac_expansion :
    handleKeyDown ⟨"x=/frac".data, 7, 7⟩ " " =
      some ⟨"x=\\frac\x7b\x7d\x7b\x7d".data, 11, 11⟩ := by
  decide

/-- Claim C4, counterexample: the `sqrt` template applied to the
non-empty selection "x" produces `\sqrt{x}`, which does place the
selection inside the construct but contains NO empty delimiter pair
(no adjacent `{}`, `()`, or `[]`) to keep typing into; and the `sum`
template ignores its selection argument entirely — "x" does not occur
in its output. -/
theorem c4_counterexample :
    (COMMAND_TEMPLATES.sqrt "x".data = "\\sqrt\x7bx\x7d".data ∧
      containsSeg "x".data (COMMAND_TEMPLATES.sqrt "x".data) = true ∧
      hasEmptySlot (COMMAND_TEMPLATES.sqrt "x".data) = false) ∧
    containsSeg "x".data (COMMAND_TEMPLATES.sum "x".data) = false := by
  decide

/-- Claim C4 (amended): not every command template leaves an empty
structural slot after receiving a selection — `sqrt` with a non-empty
selection does not, and the calculus/matrix templates ignore the
selection — but the templates declared with a second slot do: for
`frac`, `pow`, and `sub`, every selected-text argument is placed inside
the construct and the output retains an empty `{}` slot for the user to
continue typing into. -/
theorem c4_amended_templates : ∀ sel : List Char,
    (containsSeg sel (COMMAND_TEMPLATES.frac sel) = true ∧
      hasEmptySlot (COMMAND_TEMPLATES.frac sel) = true) ∧
    (containsSeg sel (COMMAND_TEMPLATES.pow sel) = true ∧
      hasEmptySlot (COMMAND_TEMPLATES.pow sel) = true) ∧
    (containsSeg sel (COMMAND_TEMPLATES.sub sel) = true ∧
      hasEmptySlot (COMMAND_TEMPLATES.sub sel) = true) := by
  intro sel
  refine ⟨⟨?_, ?_⟩, ⟨?_, ?_⟩, ⟨?_, ?_⟩⟩
  · rw [COMMAND_TEMPLATES.frac, List.append_assoc]
    exact containsSeg_self_append _ _ _
  · rw [COMMAND_TEMPLATES.frac]
    exact hasEmptySlot_append_right _ _ (by decide)
  · rw [COMMAND_TEMPLATES.pow, List.append_assoc]
    exact containsSeg_self_append _ _ _
  · rw [COMMAND_TEMPLATES.pow]
    exact hasEmptySlot_append_right _ _ (by decide)
  · rw [COMMAND_TEMPLATES.sub, List.append_assoc]
    exact containsSeg_self_append _ _ _
  · rw [COMMAND_TEMPLATES.sub]
    exact hasEmptySlot_append_right _ _ (by decide)

/-- Claim C5, counterexample: with buffer `/sqx` and active selection
`x` (range `[3, 4]`, query `sq`), picking the palette entry `sqrt`
yields `\sqrt{}x` with the caret at 7: the matched `/sq` span is
deleted, but the template is invoked with no argument, so the snippet is
`\sqrt{}`, the selection is NOT placed inside it (no `{x` segment
occurs), and the selection's text is left in the buffer after the
snippet. -/
theorem c5_counterexample :
    pickCommand ⟨"/sqx".data, 3, 4⟩ "sqrt".data =
      some ⟨"\\sqrt\x7b\x7dx".data, 7, 7⟩ ∧
    containsSeg "\x7bx".data "\\sqrt\x7b\x7dx".data = false := by
  decide

/-- Claim C5 (amended): picking a suggestion entry deletes the matched
`/<query>` span and inserts the entry's template applied to the EMPTY
string; the current selection is not passed as the template argument,
and (because the kept suffix starts at the caret) the selection's
characters remain in the buffer immediately after the inserted snippet,
followed by the text after the selection. -/
theorem c5_pick_ignores_selection :
    ∀ (el : TextArea) (cmd : List Char) (t : List Char → List Char),
      lookupTemplate cmd = some t → el.selStart ≤ el.selEnd →
      pickCommand el cmd =
        some ⟨el.value.take (pickStart el) ++ t [] ++
                ((el.value.drop el.selStart).take (el.selEnd - el.selStart) ++
                  el.value.drop el.selEnd),
              (el.value.take (pickStart el) ++ t []).length,
              (el.value.take (pickStart el) ++ t []).length⟩ := by
  intro el cmd t hl hse
  have hsplit := drop_eq_take_append_drop el.value el.selStart el.selEnd hse
  simp only [pickCommand, hl]
  rw [← hsplit, List.append_assoc]

/-- Witness for C5's amended theorem at a concrete input. -/
theorem c5_witness :
    pickCommand ⟨"/sqx".data, 3, 4⟩ "sqrt".data =
      some ⟨"/sqx".data.take (pickStart ⟨"/sqx".data, 3, 4⟩) ++ COMMAND_TEMPLATES.sqrt [] ++
              (("/sqx".data.drop 3).take (4 - 3) ++ "/sqx".data.drop 4),
            ("/sqx".data.take (pickStart ⟨"/sqx".data, 3, 4⟩) ++ COMMAND_TEMPLATES.sqrt []).length,
            ("/sqx".data.take (pickStart ⟨"/sqx".data, 3, 4⟩) ++ COMMAND_TEMPLATES.sqrt []).length⟩ :=
  c5_pick_ignores_selection ⟨"/sqx".data, 3, 4⟩ "sqrt".data COMMAND_TEMPLATES.sqrt rfl
    (by decide)

/-- Claim C6: for every query, each suggested entry starts with the
query compared case-insensitively, the suggestions are a subsequence of
the command table's declaration order, at most 8 are returned, and the
empty query yields no suggestions. -/
theorem c6_suggestion_invariants : ∀ query : List Char,
    (∀ e ∈ paletteSuggestions query,
        (query.map Char.toLower).isPrefixOf (e.map Char.toLower) = true) ∧
    List.Sublist (paletteSuggestions query) ALL_COMMANDS ∧
    (paletteSuggestions query).length ≤ 8 ∧
    paletteSuggestions [] = [] := by
  intro query
  by_cases hq : query = []
  · subst hq
    exact ⟨by simp [paletteSuggestions], by simp [paletteSuggestions],
      by simp [paletteSuggestions], rfl⟩
  · have hps : paletteSuggestions query = paletteItems query := by
      simp [paletteSuggestions, hq]
    refine ⟨?_, ?_, ?_, rfl⟩
    · intro e he
      rw [hps] at he
      have he' := List.mem_of_mem_take he
      have hmem := List.mem_filter.mp he'
      rw [allCommandsLower e hmem.1]
      exact hmem.2
    · rw [hps]
      exact (List.take_sublist _ _).trans (List.filter_sublist _)
    · rw [hps]
      exact List.length_take_le _ _

/-- Witness for C6 at the query `"s"` and entry `sqrt`. -/
theorem c6_witness :
    ("s".data.map Char.toLower).isPrefixOf ("sqrt".data.map Char.toLower) = true :=
  (c6_suggestion_invariants "s".data).1 "sqrt".data (by decide)

/-- Claim C9: when the renderer fails for the current buffer text (or
has produced no markup yet), the preview shows the raw, unrendered
text: the catch branch stores `none`, and `display` then renders the
`<pre>` fallback with the original text — it is total (never throws)
and `PreviewDisplay` has no error form, so a render failure is never
surfaced as an error or a blank preview. -/
theorem c9_render_fallback : ∀ latex : String,
    (∀ errMsg : String,
        KaTeXRenderer.display latex (renderEffect (Except.error errMsg)) =
          PreviewDisplay.rawText latex) ∧
    KaTeXRenderer.display latex none = PreviewDisplay.rawText latex :=
  fun _ => ⟨fun _ => rfl, rfl⟩
/-- Claim C7: typing `(`, `[`, or `{` is always intercepted (the
handler returns an updated state, never falling through to default
insertion of the bare bracket): the selection — possibly empty — is
replaced by the opening bracket, the selection text, and the matching
closing bracket, with the caret placed right after the closing bracket;
in particular with selection `a+b` typing `(` yields `(a+b)` with the
caret immediately after the closing parenthesis. -/
theorem c7_bracket_wrap :
    (∀ el : TextArea,
      handleKeyDown el "(" =
        some ⟨el.value.take el.selStart ++
                ("(".data ++ (el.value.drop el.selStart).take (el.selEnd - el.selStart) ++
                  ")".data) ++ el.value.drop el.selEnd,
              (el.value.take el.selStart ++
                ("(".data ++ (el.value.drop el.selStart).take (el.selEnd - el.selStart) ++
                  ")".data)).length,
              (el.value.take el.selStart ++
                ("(".data ++ (el.value.drop el.selStart).take (el.selEnd - el.selStart) ++
                  ")".data)).length⟩ ∧
      handleKeyDown el "[" =
        some ⟨el.value.take el.selStart ++
                ("[".data ++ (el.value.drop el.selStart).take (el.selEnd - el.selStart) ++
                  "]".data) ++ el.value.drop el.selEnd,
              (el.value.take el.selStart ++
                ("[".data ++ (el.value.drop el.selStart).take (el.selEnd - el.selStart) ++
                  "]".data)).length,
              (el.value.take el.selStart ++
                ("[".data ++ (el.value.drop el.selStart).take (el.selEnd - el.selStart) ++
                  "]".data)).length⟩ ∧
      handleKeyDown el "\x7b" =
        some ⟨el.value.take el.selStart ++
                ("\x7b".data ++ (el.value.drop el.selStart).take (el.selEnd - el.selStart) ++
                  "\x7d".data) ++ el.value.drop el.selEnd,
              (el.value.take el.selStart ++
                ("\x7b".data ++ (el.value.drop el.selStart).take (el.selEnd - el.selStart) ++
                  "\x7d".data)).length,
              (el.value.take el.selStart ++
                ("\x7b".data ++ (el.value.drop el.selStart).take (el.selEnd - el.selStart) ++
                  "\x7d".data)).length⟩) ∧
    handleKeyDown ⟨"a+b".data, 0, 3⟩ "(" = some ⟨"(a+b)".data, 5, 5⟩ := by
  refine ⟨fun el => ⟨?_, ?_, ?_⟩, by decide⟩ <;>
    simp [handleKeyDown, wrapSelection]

/-- Claim C8, counterexample: wrapping at an empty selection in the
empty buffer with `(` and `)` yields `()` with the caret at 2 — after
the suffix — whereas the claim places it between prefix and suffix, at
`0 + "(".length = 1`. -/
theorem c8_counterexample :
    wrapSelection ⟨[], 0, 0⟩ "(".data ")".data = ⟨"()".data, 2, 2⟩ ∧
    (2 : Nat) ≠ 0 + "(".data.length := by
  decide

/-- Claim C8 (amended): with an empty selection at position `p` (within
the buffer), `wrapSelection(prefix, suffix)` inserts `prefix + suffix`
at `p` but places the caret AFTER the suffix, at
`p + prefix.length + suffix.length`, not between the two parts. -/
theorem c8_empty_wrap :
    ∀ (el : TextArea) (bw aw : List Char),
      el.selStart = el.selEnd → el.selStart ≤ el.value.length →
      wrapSelection el bw aw =
        ⟨el.value.take el.selStart ++ bw ++ aw ++ el.value.drop el.selStart,
          el.selStart + (bw.length + aw.length),
          el.selStart + (bw.length + aw.length)⟩ := by
  intro el bw aw h1 h2
  simp [wrapSelection, ← h1, List.length_take, Nat.min_eq_left h2]

/-- Witness for C8's amended theorem at a concrete input. -/
theorem c8_witness :
    wrapSelection ⟨"ab".data, 1, 1⟩ "(".data ")".data = ⟨"a()b".data, 3, 3⟩ :=
  c8_empty_wrap ⟨"ab".data, 1, 1⟩ "(".data ")".data rfl (by decide)
